import Mathlib

/-!
Verification of the jump-jump mechanical-energy script
(src/energia_mecanica_of_jump-jump.py).

The physics model is embedded shallowly: the Python floats are modelled by
exact rationals (all constants of the script are decimal literals), and the
square root of the velocity formula by `Real.sqrt`.  The position argument of
`calcular_Energias` is a rational; the components that the script computes
without a square root (gravitational and elastic potential, deformation) stay
in `ℚ`, while velocity, kinetic energy and the recomputed mechanical energy
live in `ℝ`.
-/

namespace JumpJump

/-- Mass of the system in kg (source line 9, `m = 90`). -/
def m : ℚ := 90

/-- Gravitational acceleration in m/s^2 (source line 10, `g = 9.81`). -/
def g : ℚ := 9.81

/-- Maximum spring deformation in m (source line 11, `x_max = 0.5`). -/
def x_max : ℚ := 0.5

/-- Maximum height reached by the body in m (source line 12, `y_max = 1`). -/
def y_max : ℚ := 1

/-- Spring stiffness, derived once from energy conservation
(source line 15, `k = 2 * m * g * y_max / x_max**2`). -/
def k : ℚ := 2 * m * g * y_max / x_max ^ 2

/-- Amplitude of the motion (source line 18, `A = y_max / 2`). -/
def A : ℚ := y_max / 2

/-- Time step between frames (source line 22, `dt = 0.05`). -/
def dt : ℚ := 0.05

/-- Spring deformation as a function of height (source lines 40-43):
`x = x_max - y` while the body touches the spring, else `0`. -/
def deform (y : ℚ) : ℚ := if y < x_max then x_max - y else 0

/-- Snap-to-zero adjustment (source lines 46-47): `np.isclose(y, 0.0, atol=1e-3)`
holds exactly when `|y - 0| <= 1e-3 + rtol * |0| = 1e-3`, and then `y` is
replaced by `0`. -/
def snap (y : ℚ) : ℚ := if |y| ≤ 1 / 1000 then 0 else y

/-- Total mechanical energy available to the system
(source line 50, `E_t = m * g * y_max`). -/
def E_t : ℚ := m * g * y_max

/-- Gravitational potential energy at height `y` (source line 51, `U_g = m * g * y`). -/
def U_g (y : ℚ) : ℚ := m * g * y

/-- Elastic potential energy at deformation `x` (source line 52, `U_el = 0.5 * k * x**2`). -/
def U_el (x : ℚ) : ℚ := 1 / 2 * k * x ^ 2

/-- Result record of `calcular_Energias`, in the order the source returns the
tuple `(E_mec, K_c, U_g, U_el, v, x)` (source line 66). -/
structure Energias where
  E_mec : ℝ
  K_c : ℝ
  U_g : ℚ
  U_el : ℚ
  v : ℝ
  x : ℚ

/-- Shallow embedding of `calcular_Energias` (source lines 27-66).  The local
bindings follow the source line by line: the deformation `x` is computed from
the original argument (lines 40-43), then `y` is rebound to its snapped value
(lines 46-47), the energies use the rebound `y` (lines 50-52), the velocity is
chosen by the two strict-inequality branches (lines 55-60), and kinetic and
mechanical energy are recomputed from `v` (lines 63-64). -/
noncomputable def calcular_Energias (y : ℚ) : Energias :=
  let x : ℚ := deform y
  let y : ℚ := snap y
  let v : ℝ :=
    if x_max < y ∧ y < y_max then Real.sqrt ((2 * (E_t - U_g y) / m : ℚ) : ℝ)
    else if 0 < y ∧ y < x_max then Real.sqrt ((2 / m * (E_t - U_g y - U_el x) : ℚ) : ℝ)
    else 0
  let kc : ℝ := 1 / 2 * (m : ℝ) * v ^ 2
  { E_mec := kc + ((U_g y : ℚ) : ℝ) + ((U_el x : ℚ) : ℝ)
    K_c := kc
    U_g := U_g y
    U_el := U_el x
    v := v
    x := x }

/-- Total simulated time (source line 21, `t_total = 2 * np.pi`). -/
noncomputable def t_total : ℝ := 2 * Real.pi

/-- Number of samples produced by `np.arange(0, t_total, dt)` (source line 72):
for a positive step, `arange` yields `⌈(stop - start) / step⌉` evenly spaced
values starting at `start`. -/
noncomputable def numAmostras : ℕ := ⌈t_total / ((dt : ℚ) : ℝ)⌉₊

/-- Time of the j-th sample (source line 72): `tempos[j] = 0 + j * dt`. -/
noncomputable def tempos (j : ℕ) : ℝ := ((dt : ℚ) : ℝ) * j

/-- Position of the j-th sample (source line 73):
`posicoes = y_max * (1 + np.cos(tempos)) / 2`. -/
noncomputable def posicoes (j : ℕ) : ℝ :=
  ((y_max : ℚ) : ℝ) * (1 + Real.cos (tempos j)) / 2

/-- The position sequence as a finite list, one entry per `arange` sample. -/
noncomputable def posicoesList : List ℝ := (List.range numAmostras).map posicoes

lemma calc_x (y : ℚ) : (calcular_Energias y).x = deform y := rfl

lemma calc_Ug (y : ℚ) : (calcular_Energias y).U_g = U_g (snap y) := rfl

lemma calc_Uel (y : ℚ) : (calcular_Energias y).U_el = U_el (deform y) := rfl

lemma calc_v (y : ℚ) : (calcular_Energias y).v =
    if x_max < snap y ∧ snap y < y_max then
      Real.sqrt ((2 * (E_t - U_g (snap y)) / m : ℚ) : ℝ)
    else if 0 < snap y ∧ snap y < x_max then
      Real.sqrt ((2 / m * (E_t - U_g (snap y) - U_el (deform y)) : ℚ) : ℝ)
    else 0 := rfl

lemma calc_Kc (y : ℚ) :
    (calcular_Energias y).K_c = 1 / 2 * (m : ℝ) * (calcular_Energias y).v ^ 2 := rfl

lemma calc_Emec (y : ℚ) : (calcular_Energias y).E_mec =
    (calcular_Energias y).K_c + ((U_g (snap y) : ℚ) : ℝ) + ((U_el (deform y) : ℚ) : ℝ) := rfl

lemma snap_of_small {y : ℚ} (h : |y| ≤ 1 / 1000) : snap y = 0 := if_pos h

lemma snap_of_large {y : ℚ} (h : 1 / 1000 < |y|) : snap y = y := if_neg (not_le.mpr h)

lemma deform_of_lt {y : ℚ} (h : y < x_max) : deform y = x_max - y := if_pos h

lemma deform_of_ge {y : ℚ} (h : x_max ≤ y) : deform y = 0 := if_neg (not_lt.mpr h)

lemma snap_eq_of_pos {y : ℚ} (h : 1 / 1000 < y) : snap y = y :=
  snap_of_large (by rw [abs_of_pos (by linarith)]; exact h)

lemma snap_pos_eq {y : ℚ} (h : 0 < snap y) : snap y = y := by
  by_cases hc : |y| ≤ 1 / 1000
  · rw [snap_of_small hc] at h
    exact absurd h (lt_irrefl 0)
  · exact snap_of_large (not_le.mp hc)

lemma arg_airborne_nonneg {y : ℚ} (h2 : snap y < y_max) :
    0 ≤ 2 * (E_t - U_g (snap y)) / m := by
  simp only [E_t, U_g, m, g, y_max] at *
  nlinarith [h2]

lemma arg_spring_nonneg {y : ℚ} (h1 : 0 < snap y) (h2 : snap y < x_max) :
    0 ≤ 2 / m * (E_t - U_g (snap y) - U_el (deform y)) := by
  have hy : snap y = y := snap_pos_eq h1
  rw [hy] at h1 h2 ⊢
  rw [deform_of_lt h2, U_el]
  simp only [E_t, U_g, m, g, y_max, x_max, k] at *
  nlinarith [h1, h2]

lemma v_airborne {y : ℚ} (h1 : x_max < snap y) (h2 : snap y < y_max) :
    (calcular_Energias y).v = Real.sqrt ((2 * (E_t - U_g (snap y)) / m : ℚ) : ℝ) := by
  rw [calc_v, if_pos ⟨h1, h2⟩]

lemma v_spring {y : ℚ} (h1 : 0 < snap y) (h2 : snap y < x_max) :
    (calcular_Energias y).v =
      Real.sqrt ((2 / m * (E_t - U_g (snap y) - U_el (deform y)) : ℚ) : ℝ) := by
  have hno : ¬(x_max < snap y ∧ snap y < y_max) := by
    rintro ⟨ha, -⟩
    exact absurd (ha.trans h2) (lt_irrefl x_max)
  rw [calc_v, if_neg hno, if_pos ⟨h1, h2⟩]

lemma v_else {y : ℚ} (hno1 : ¬(x_max < snap y ∧ snap y < y_max))
    (hno2 : ¬(0 < snap y ∧ snap y < x_max)) : (calcular_Energias y).v = 0 := by
  rw [calc_v, if_neg hno1, if_neg hno2]

lemma Kc_airborne {y : ℚ} (h1 : x_max < snap y) (h2 : snap y < y_max) :
    (calcular_Energias y).K_c = ((E_t - U_g (snap y) : ℚ) : ℝ) := by
  rw [calc_Kc, v_airborne h1 h2,
    Real.sq_sqrt (by exact_mod_cast arg_airborne_nonneg h2)]
  have hm : (m : ℝ) ≠ 0 := by norm_num [m]
  push_cast
  field_simp
  ring

lemma Kc_spring {y : ℚ} (h1 : 0 < snap y) (h2 : snap y < x_max) :
    (calcular_Energias y).K_c = ((E_t - U_g (snap y) - U_el (deform y) : ℚ) : ℝ) := by
  rw [calc_Kc, v_spring h1 h2,
    Real.sq_sqrt (by exact_mod_cast arg_spring_nonneg h1 h2)]
  have hm : (m : ℝ) ≠ 0 := by norm_num [m]
  push_cast
  field_simp
  ring

lemma Kc_else {y : ℚ} (hno1 : ¬(x_max < snap y ∧ snap y < y_max))
    (hno2 : ¬(0 < snap y ∧ snap y < x_max)) : (calcular_Energias y).K_c = 0 := by
  rw [calc_Kc, v_else hno1 hno2]
  ring

lemma Emec_airborne {y : ℚ} (h1 : x_max < snap y) (h2 : snap y < y_max) :
    (calcular_Energias y).E_mec = ((E_t : ℚ) : ℝ) := by
  have hy : snap y = y := snap_pos_eq ((by norm_num [x_max] : (0:ℚ) < x_max).trans h1)
  have hx : deform y = 0 := deform_of_ge (le_of_lt (hy ▸ h1))
  rw [calc_Emec, Kc_airborne h1 h2, hx]
  push_cast [U_el]
  ring

lemma Emec_spring {y : ℚ} (h1 : 0 < snap y) (h2 : snap y < x_max) :
    (calcular_Energias y).E_mec = ((E_t : ℚ) : ℝ) := by
  rw [calc_Emec, Kc_spring h1 h2]
  push_cast
  ring

lemma snap_nonneg {y : ℚ} (h : 0 ≤ y) : 0 ≤ snap y := by
  unfold snap
  split_ifs
  · exact le_refl 0
  · exact h

lemma deform_nonneg (y : ℚ) : 0 ≤ deform y := by
  unfold deform
  split_ifs with h
  · linarith
  · exact le_refl 0

lemma Uel_nonneg (x : ℚ) : 0 ≤ U_el x := by
  unfold U_el k m g x_max y_max
  positivity

lemma v_nonneg (y : ℚ) : 0 ≤ (calcular_Energias y).v := by
  rw [calc_v]
  split_ifs
  · exact Real.sqrt_nonneg _
  · exact Real.sqrt_nonneg _
  · exact le_refl 0

lemma Kc_nonneg (y : ℚ) : 0 ≤ (calcular_Energias y).K_c := by
  rw [calc_Kc]
  have hm : (0 : ℝ) ≤ ((m : ℚ) : ℝ) := by norm_num [m]
  nlinarith [sq_nonneg ((calcular_Energias y).v)]

lemma Emec_le {y : ℚ} (h0 : 0 ≤ y) (h1 : y ≤ y_max) :
    (calcular_Energias y).E_mec ≤ ((m * g * y_max : ℚ) : ℝ) := by
  by_cases hb1 : x_max < snap y ∧ snap y < y_max
  · rw [Emec_airborne hb1.1 hb1.2]
    exact le_of_eq rfl
  · by_cases hb2 : 0 < snap y ∧ snap y < x_max
    · rw [Emec_spring hb2.1 hb2.2]
      exact le_of_eq rfl
    · rw [calc_Emec, Kc_else hb1 hb2, zero_add, ← Rat.cast_add, Rat.cast_le]
      by_cases hc : |y| ≤ 1 / 1000
      · rw [snap_of_small hc]
        have habs : y ≤ 1 / 1000 := le_trans (le_abs_self y) hc
        have hd : deform y = x_max - y := deform_of_lt (by rw [x_max]; linarith)
        rw [hd]
        simp only [U_g, U_el, k, m, g, x_max, y_max] at *
        nlinarith [h0, habs]
      · have hs : snap y = y := snap_of_large (not_le.mp hc)
        rw [hs] at hb2 ⊢
        have hy : 1 / 1000 < y := by
          rcases abs_cases y with ⟨he, -⟩ | ⟨he, -⟩
          · rw [← he]
            exact not_le.mp hc
          · rw [y_max] at h1
            nlinarith [not_le.mp hc]
        have hge : x_max ≤ y := by
          by_contra hlt
          exact hb2 ⟨by linarith, not_le.mp hlt⟩
        rw [deform_of_ge hge]
        simp only [U_g, U_el, k, m, g, x_max, y_max] at *
        nlinarith [h1]

/-- Claim C1, counterexample: `y = x_max = 0.5` lies strictly between `0` and
`y_max`, yet the reported total mechanical energy at `x_max` is `441.45`,
not the conserved value `m * g * y_max = 882.9`: the velocity branches both
use strict inequalities, so `y = x_max` falls into the `v = 0` branch and the
kinetic term is missing from the total. -/
theorem claim_C1_counterexample :
    0 < x_max ∧ x_max < y_max ∧
      (calcular_Energias x_max).E_mec ≠ ((m * g * y_max : ℚ) : ℝ) := by
  refine ⟨by norm_num [x_max], by norm_num [x_max, y_max], ?_⟩
  have hs : snap x_max = x_max := snap_eq_of_pos (by norm_num [x_max])
  have hno1 : ¬(x_max < snap x_max ∧ snap x_max < y_max) := by
    rw [hs]
    exact fun hc => absurd hc.1 (lt_irrefl x_max)
  have hno2 : ¬(0 < snap x_max ∧ snap x_max < x_max) := by
    rw [hs]
    exact fun hc => absurd hc.2 (lt_irrefl x_max)
  rw [calc_Emec, Kc_else hno1 hno2, hs, deform_of_ge (le_refl x_max), zero_add]
  norm_num [U_g, U_el, m, g, x_max, y_max]

/-- Claim C1 (amended): for every position `y` strictly between the snap
tolerance `1e-3` and `y_max`, other than the branch boundary `y = x_max`, the
tuple returned by `calcular_Energias` satisfies `K + U_g + U_el = m * g * y_max`
exactly (energy conservation).  The original claim also included `y = x_max`
and `0 < y ≤ 1e-3`, where conservation fails because the velocity is forced
to `0` there. -/
theorem claim_C1_conservation (y : ℚ) (h0 : 1 / 1000 < y) (h1 : y < y_max)
    (h2 : y ≠ x_max) :
    (calcular_Energias y).E_mec = ((m * g * y_max : ℚ) : ℝ) := by
  have hs : snap y = y := snap_of_large (by rw [abs_of_pos (by linarith)]; exact h0)
  rcases lt_or_gt_of_ne h2 with hlt | hgt
  · rw [Emec_spring (by rw [hs]; linarith) (by rw [hs]; exact hlt)]
    exact rfl
  · rw [Emec_airborne (by rw [hs]; exact hgt) (by rw [hs]; exact h1)]
    exact rfl

/-- Witness for C1 at the airborne position `y = 3/4`. -/
theorem claim_C1_conservation_witness :
    1 / 1000 < (3 / 4 : ℚ) ∧ (3 / 4 : ℚ) < y_max ∧ (3 / 4 : ℚ) ≠ x_max ∧
      (calcular_Energias (3 / 4)).E_mec = ((m * g * y_max : ℚ) : ℝ) :=
  ⟨by norm_num, by norm_num [y_max], by norm_num [x_max],
    claim_C1_conservation (3 / 4) (by norm_num) (by norm_num [y_max])
      (by norm_num [x_max])⟩

/-- Claim C2: on the domain `[0, y_max]` the function is total; in particular
the argument of each square root is nonnegative whenever the corresponding
branch is taken, so no negative value ever reaches a square root. -/
theorem claim_C2_sqrt_args (y : ℚ) (hy0 : 0 ≤ y) (hy1 : y ≤ y_max) :
    (x_max < snap y ∧ snap y < y_max → 0 ≤ 2 * (E_t - U_g (snap y)) / m) ∧
    (0 < snap y ∧ snap y < x_max →
      0 ≤ 2 / m * (E_t - U_g (snap y) - U_el (deform y))) :=
  ⟨fun h => arg_airborne_nonneg h.2, fun h => arg_spring_nonneg h.1 h.2⟩

/-- Witness for C2 at `y = 1/4`. -/
theorem claim_C2_sqrt_args_witness :
    (0 : ℚ) ≤ 1 / 4 ∧ (1 / 4 : ℚ) ≤ y_max ∧
      ((x_max < snap (1 / 4) ∧ snap (1 / 4) < y_max →
        0 ≤ 2 * (E_t - U_g (snap (1 / 4))) / m) ∧
      (0 < snap (1 / 4) ∧ snap (1 / 4) < x_max →
        0 ≤ 2 / m * (E_t - U_g (snap (1 / 4)) - U_el (deform (1 / 4))))) :=
  ⟨by norm_num, by norm_num [y_max],
    claim_C2_sqrt_args (1 / 4) (by norm_num) (by norm_num [y_max])⟩

/-- Claim C3: the velocity is chosen by three mutually exclusive position
branches evaluated on the snapped position: airborne for
`x_max < y < y_max`, spring contact for `0 < y < x_max`, and `0` otherwise —
in particular at `y = 0`, at `y = x_max`, and for every `y ≥ y_max`. -/
theorem claim_C3_velocity_branches :
    (∀ y : ℚ, (calcular_Energias y).v =
      if x_max < snap y ∧ snap y < y_max then
        Real.sqrt ((2 * (E_t - U_g (snap y)) / m : ℚ) : ℝ)
      else if 0 < snap y ∧ snap y < x_max then
        Real.sqrt ((2 / m * (E_t - U_g (snap y) - U_el (deform y)) : ℚ) : ℝ)
      else 0) ∧
    (calcular_Energias 0).v = 0 ∧ (calcular_Energias x_max).v = 0 ∧
    ∀ y : ℚ, y_max ≤ y → (calcular_Energias y).v = 0 := by
  have hsx : snap x_max = x_max := snap_eq_of_pos (by norm_num [x_max])
  refine ⟨fun y => rfl, ?_, ?_, fun y hy => ?_⟩
  · exact v_else (by norm_num [snap, x_max, y_max]) (by norm_num [snap, x_max])
  · refine v_else ?_ ?_
    · rw [hsx]
      exact fun hc => absurd hc.1 (lt_irrefl x_max)
    · rw [hsx]
      exact fun hc => absurd hc.2 (lt_irrefl x_max)
  · have hs : snap y = y := by
      rw [y_max] at hy
      exact snap_eq_of_pos (by linarith)
    refine v_else ?_ ?_
    · rw [hs]
      rintro ⟨-, hc⟩
      exact absurd (lt_of_le_of_lt hy hc) (lt_irrefl y_max)
    · rw [hs]
      rintro ⟨-, hc⟩
      rw [y_max] at hy
      rw [x_max] at hc
      linarith
/-- Witness for C3 at `y = 2 ≥ y_max`. -/
theorem claim_C3_velocity_branches_witness : (calcular_Energias 2).v = 0 :=
  claim_C3_velocity_branches.2.2.2 2 (by norm_num [y_max])

/-- Claim C4: the returned spring deformation equals `x_max - y` when
`y < x_max` and `0` otherwise; hence it vanishes on `[x_max, y_max]` and equals
the nonnegative value `x_max - y` on `[0, x_max)`. -/
theorem claim_C4_deformation (y : ℚ) :
    (calcular_Energias y).x = (if y < x_max then x_max - y else 0) ∧
    (x_max ≤ y → (calcular_Energias y).x = 0) ∧
    (0 ≤ y → y < x_max →
      (calcular_Energias y).x = x_max - y ∧ 0 ≤ (calcular_Energias y).x) := by
  refine ⟨rfl, fun h => by rw [calc_x, deform_of_ge h], fun h0 hlt => ?_⟩
  rw [calc_x, deform_of_lt hlt]
  exact ⟨rfl, by linarith⟩

/-- Witness for C4 at `y = 3/4` (no contact) and `y = 1/4` (contact). -/
theorem claim_C4_deformation_witness :
    (calcular_Energias (3 / 4)).x = 0 ∧
      (calcular_Energias (1 / 4)).x = x_max - 1 / 4 ∧
      0 ≤ (calcular_Energias (1 / 4)).x :=
  ⟨(claim_C4_deformation (3 / 4)).2.1 (by norm_num [x_max]),
    ((claim_C4_deformation (1 / 4)).2.2 (by norm_num) (by norm_num [x_max])).1,
    ((claim_C4_deformation (1 / 4)).2.2 (by norm_num) (by norm_num [x_max])).2⟩

/-- Claim C6: every position within `1e-3` of zero is snapped to exactly zero
before the velocity branching, so the returned velocity and kinetic energy are
both zero. -/
theorem claim_C6_snap (y : ℚ) (h : |y| ≤ 1 / 1000) :
    snap y = 0 ∧ (calcular_Energias y).v = 0 ∧ (calcular_Energias y).K_c = 0 := by
  have hs : snap y = 0 := snap_of_small h
  have hno1 : ¬(x_max < snap y ∧ snap y < y_max) := by rw [hs]; norm_num [x_max]
  have hno2 : ¬(0 < snap y ∧ snap y < x_max) := by rw [hs]; norm_num
  exact ⟨hs, v_else hno1 hno2, Kc_else hno1 hno2⟩

/-- Witness for C6 at `y = 1/1000`, the boundary of the snap tolerance. -/
theorem claim_C6_snap_witness :
    |(1 / 1000 : ℚ)| ≤ 1 / 1000 ∧ snap (1 / 1000) = 0 ∧
      (calcular_Energias (1 / 1000)).v = 0 ∧
      (calcular_Energias (1 / 1000)).K_c = 0 :=
  ⟨by rw [abs_of_pos] <;> norm_num,
    claim_C6_snap (1 / 1000) (by rw [abs_of_pos] <;> norm_num)⟩

/-- Claim C7: the spring stiffness is computed once as
`k = 2 * m * g * y_max / x_max ^ 2`, and with the fixed constants its value is
`7063.2` N/m. -/
theorem claim_C7_stiffness : k = 2 * m * g * y_max / x_max ^ 2 ∧ k = 7063.2 :=
  ⟨rfl, by norm_num [k, m, g, x_max, y_max]⟩

/-- Claim C8: concrete turning-point values.  At the top `y = 1`:
`U_g = 882.9`, `U_el = 0`, `v = 0`, `K = 0`, `E_mec = 882.9`.  At the bottom
`y = 0`: deformation `0.5`, `U_el = 882.9`, `U_g = 0`, `v = 0`, `K = 0`,
`E_mec = 882.9`. -/
theorem claim_C8_turning_points :
    ((calcular_Energias 1).U_g = 882.9 ∧ (calcular_Energias 1).U_el = 0 ∧
      (calcular_Energias 1).v = 0 ∧ (calcular_Energias 1).K_c = 0 ∧
      (calcular_Energias 1).E_mec = 882.9) ∧
    ((calcular_Energias 0).x = 0.5 ∧ (calcular_Energias 0).U_el = 882.9 ∧
      (calcular_Energias 0).U_g = 0 ∧ (calcular_Energias 0).v = 0 ∧
      (calcular_Energias 0).K_c = 0 ∧ (calcular_Energias 0).E_mec = 882.9) := by
  constructor <;>
    norm_num [calcular_Energias, snap, deform, U_g, U_el, m, g, x_max, y_max, k, E_t]

/-- Claim C9: for `0 < y ≤ 1e-3` the deformation is computed from the original
position but the gravitational potential and velocity use the snapped value, so
the function returns deformation `x_max - y`, `U_g = 0`, `v = 0`, `K = 0`, and
a total `E_mec = 1/2 * k * (x_max - y)^2` strictly below `m * g * y_max`. -/
theorem claim_C9_snap_mismatch (y : ℚ) (h1 : 0 < y) (h2 : y ≤ 1 / 1000) :
    (calcular_Energias y).x = x_max - y ∧ (calcular_Energias y).U_g = 0 ∧
    (calcular_Energias y).v = 0 ∧ (calcular_Energias y).K_c = 0 ∧
    (calcular_Energias y).E_mec = ((1 / 2 * k * (x_max - y) ^ 2 : ℚ) : ℝ) ∧
    (calcular_Energias y).E_mec < ((m * g * y_max : ℚ) : ℝ) := by
  have habs : |y| ≤ 1 / 1000 := by rw [abs_of_pos h1]; exact h2
  have hs : snap y = 0 := snap_of_small habs
  have hd : deform y = x_max - y := deform_of_lt (by rw [x_max]; linarith)
  have hno1 : ¬(x_max < snap y ∧ snap y < y_max) := by rw [hs]; norm_num [x_max]
  have hno2 : ¬(0 < snap y ∧ snap y < x_max) := by rw [hs]; norm_num
  have hEmec : (calcular_Energias y).E_mec = ((1 / 2 * k * (x_max - y) ^ 2 : ℚ) : ℝ) := by
    rw [calc_Emec, Kc_else hno1 hno2, hs, hd, zero_add]
    norm_num [U_g, U_el]
  refine ⟨by rw [calc_x, hd], by rw [calc_Ug, hs]; norm_num [U_g],
    v_else hno1 hno2, Kc_else hno1 hno2, hEmec, ?_⟩
  rw [hEmec, Rat.cast_lt]
  simp only [k, m, g, x_max, y_max]
  nlinarith [h1, h2]

/-- Witness for C9 at `y = 1/1000`. -/
theorem claim_C9_snap_mismatch_witness :
    (0 : ℚ) < 1 / 1000 ∧ (1 / 1000 : ℚ) ≤ 1 / 1000 ∧
      ((calcular_Energias (1 / 1000)).x = x_max - 1 / 1000 ∧
        (calcular_Energias (1 / 1000)).U_g = 0 ∧
        (calcular_Energias (1 / 1000)).v = 0 ∧
        (calcular_Energias (1 / 1000)).K_c = 0 ∧
        (calcular_Energias (1 / 1000)).E_mec =
          ((1 / 2 * k * (x_max - 1 / 1000) ^ 2 : ℚ) : ℝ) ∧
        (calcular_Energias (1 / 1000)).E_mec < ((m * g * y_max : ℚ) : ℝ)) :=
  ⟨by norm_num, by norm_num,
    claim_C9_snap_mismatch (1 / 1000) (by norm_num) (by norm_num)⟩

/-- Claim C10: on `[0, y_max]` the reported total mechanical energy never
exceeds the conserved budget `m * g * y_max`, with equality whenever one of the
two square-root branches is taken, and every returned component — kinetic
energy, both potentials, velocity and deformation — is nonnegative. -/
theorem claim_C10_energy_budget (y : ℚ) (h0 : 0 ≤ y) (h1 : y ≤ y_max) :
    (calcular_Energias y).E_mec ≤ ((m * g * y_max : ℚ) : ℝ) ∧
    0 ≤ (calcular_Energias y).K_c ∧ 0 ≤ (calcular_Energias y).U_g ∧
    0 ≤ (calcular_Energias y).U_el ∧ 0 ≤ (calcular_Energias y).v ∧
    0 ≤ (calcular_Energias y).x ∧
    ((x_max < snap y ∧ snap y < y_max) ∨ (0 < snap y ∧ snap y < x_max) →
      (calcular_Energias y).E_mec = ((m * g * y_max : ℚ) : ℝ)) := by
  refine ⟨Emec_le h0 h1, Kc_nonneg y, ?_, ?_, v_nonneg y, ?_, ?_⟩
  · rw [calc_Ug]
    have := snap_nonneg h0
    simp only [U_g, m, g]
    nlinarith [this]
  · rw [calc_Uel]
    exact Uel_nonneg _
  · rw [calc_x]
    exact deform_nonneg y
  · rintro (⟨ha, hb⟩ | ⟨ha, hb⟩)
    · rw [Emec_airborne ha hb]
      exact rfl
    · rw [Emec_spring ha hb]
      exact rfl

lemma dt_cast : ((dt : ℚ) : ℝ) = 1 / 20 := by norm_num [dt]

lemma ymax_cast : ((y_max : ℚ) : ℝ) = 1 := by norm_num [y_max]

lemma posicoes_eq (j : ℕ) : posicoes j = (1 + Real.cos ((1 / 20 : ℝ) * j)) / 2 := by
  rw [posicoes, tempos, dt_cast, ymax_cast, one_mul]

lemma numAmostras_eq : numAmostras = 126 := by
  have h1 : (3.141592 : ℝ) < Real.pi := Real.pi_gt_d6
  have h2 : Real.pi < 3.141593 := Real.pi_lt_d6
  rw [numAmostras, t_total, dt_cast]
  rw [Nat.ceil_eq_iff (by norm_num)]
  constructor
  · push_cast
    nlinarith
  · push_cast
    nlinarith

lemma cos_upper {x : ℝ} (h0 : 0 ≤ x) (h1 : x ≤ 1) :
    Real.cos x ≤ 1 - x ^ 2 / 2 + x ^ 4 * (5 / 96) := by
  have hb := Real.cos_bound (x := x) (by rwa [abs_of_nonneg h0])
  rw [abs_of_nonneg h0] at hb
  have := (abs_sub_le_iff.mp hb).1
  linarith

lemma cos_lower {x : ℝ} (h0 : 0 ≤ x) (h1 : x ≤ 1) :
    1 - x ^ 2 / 2 - x ^ 4 * (5 / 96) ≤ Real.cos x := by
  have hb := Real.cos_bound (x := x) (by rwa [abs_of_nonneg h0])
  rw [abs_of_nonneg h0] at hb
  have := (abs_sub_le_iff.mp hb).2
  linarith

lemma cos_315_le : Real.cos 3.15 ≤ -0.99996 := by
  have hπ1 : (3.141592 : ℝ) < Real.pi := Real.pi_gt_d6
  have hπ2 : Real.pi < 3.141593 := Real.pi_lt_d6
  have hrw : (3.15 : ℝ) = (3.15 - Real.pi) + Real.pi := by ring
  rw [hrw, Real.cos_add_pi]
  have h0 : (0 : ℝ) ≤ 3.15 - Real.pi := by linarith
  have h1 : (3.15 : ℝ) - Real.pi ≤ 1 := by linarith
  have hl := cos_lower h0 h1
  have hu1 : (3.15 : ℝ) - Real.pi ≤ 0.008408 := by linarith
  have hsq : (3.15 - Real.pi) ^ 2 ≤ 0.008408 ^ 2 := pow_le_pow_left h0 hu1 2
  have hq : (3.15 - Real.pi) ^ 4 ≤ 0.008408 ^ 4 := pow_le_pow_left h0 hu1 4
  nlinarith

lemma cos_315_gt : (-1 : ℝ) < Real.cos 3.15 := by
  have hπ1 : (3.141592 : ℝ) < Real.pi := Real.pi_gt_d6
  have hπ2 : Real.pi < 3.141593 := Real.pi_lt_d6
  have hrw : (3.15 : ℝ) = (3.15 - Real.pi) + Real.pi := by ring
  rw [hrw, Real.cos_add_pi]
  have h0 : (0 : ℝ) ≤ 3.15 - Real.pi := by linarith
  have h1 : (3.15 : ℝ) - Real.pi ≤ 1 := by linarith
  have hu := cos_upper h0 h1
  have hu0 : (0.008407 : ℝ) ≤ 3.15 - Real.pi := by linarith
  have hu1 : (3.15 : ℝ) - Real.pi ≤ 0.008408 := by linarith
  have hsq : (0.008407 : ℝ) ^ 2 ≤ (3.15 - Real.pi) ^ 2 :=
    pow_le_pow_left (by norm_num) hu0 2
  have hq : (3.15 - Real.pi) ^ 4 ≤ 0.008408 ^ 4 := pow_le_pow_left h0 hu1 4
  nlinarith

lemma cos_310_ge : (-0.99914 : ℝ) ≤ Real.cos 3.10 := by
  have hπ1 : (3.141592 : ℝ) < Real.pi := Real.pi_gt_d6
  have hπ2 : Real.pi < 3.141593 := Real.pi_lt_d6
  have hrw : (3.10 : ℝ) = Real.pi - (Real.pi - 3.10) := by ring
  rw [hrw, Real.cos_pi_sub]
  have h0 : (0 : ℝ) ≤ Real.pi - 3.10 := by linarith
  have h1 : Real.pi - 3.10 ≤ 1 := by linarith
  have hu := cos_upper h0 h1
  have hu0 : (0.041592 : ℝ) ≤ Real.pi - 3.10 := by linarith
  have hu1 : Real.pi - 3.10 ≤ 0.041593 := by linarith
  have hsq : (0.041592 : ℝ) ^ 2 ≤ (Real.pi - 3.10) ^ 2 :=
    pow_le_pow_left (by norm_num) hu0 2
  have hq : (Real.pi - 3.10) ^ 4 ≤ 0.041593 ^ 4 := pow_le_pow_left h0 hu1 4
  nlinarith

lemma cos_3083186_ge : (-0.99830 : ℝ) ≤ Real.cos 3.083186 := by
  have hπ1 : (3.141592 : ℝ) < Real.pi := Real.pi_gt_d6
  have hπ2 : Real.pi < 3.141593 := Real.pi_lt_d6
  have hrw : (3.083186 : ℝ) = Real.pi - (Real.pi - 3.083186) := by ring
  rw [hrw, Real.cos_pi_sub]
  have h0 : (0 : ℝ) ≤ Real.pi - 3.083186 := by linarith
  have h1 : Real.pi - 3.083186 ≤ 1 := by linarith
  have hu := cos_upper h0 h1
  have hu0 : (0.058406 : ℝ) ≤ Real.pi - 3.083186 := by linarith
  have hu1 : Real.pi - 3.083186 ≤ 0.058407 := by linarith
  have hsq : (0.058406 : ℝ) ^ 2 ≤ (Real.pi - 3.083186) ^ 2 :=
    pow_le_pow_left (by norm_num) hu0 2
  have hq : (Real.pi - 3.083186) ^ 4 ≤ 0.058407 ^ 4 := pow_le_pow_left h0 hu1 4
  nlinarith

lemma cos_625_bounds : (0.99944 : ℝ) ≤ Real.cos 6.25 ∧ Real.cos 6.25 < 1 := by
  have hπ1 : (3.141592 : ℝ) < Real.pi := Real.pi_gt_d6
  have hπ2 : Real.pi < 3.141593 := Real.pi_lt_d6
  have hrw : (6.25 : ℝ) = 2 * Real.pi - (2 * Real.pi - 6.25) := by ring
  rw [hrw, Real.cos_two_pi_sub]
  have h0 : (0 : ℝ) ≤ 2 * Real.pi - 6.25 := by linarith
  have h1 : 2 * Real.pi - 6.25 ≤ 1 := by linarith
  have hu := cos_upper h0 h1
  have hl := cos_lower h0 h1
  have hu0 : (0.033184 : ℝ) ≤ 2 * Real.pi - 6.25 := by linarith
  have hu1 : 2 * Real.pi - 6.25 ≤ 0.033186 := by linarith
  have hsq1 : (2 * Real.pi - 6.25) ^ 2 ≤ 0.033186 ^ 2 := pow_le_pow_left h0 hu1 2
  have hsq2 : (0.033184 : ℝ) ^ 2 ≤ (2 * Real.pi - 6.25) ^ 2 :=
    pow_le_pow_left (by norm_num) hu0 2
  have hq : (2 * Real.pi - 6.25) ^ 4 ≤ 0.033186 ^ 4 := pow_le_pow_left h0 hu1 4
  constructor
  · nlinarith
  · nlinarith

lemma posicoes_63_pos : 0 < posicoes 63 := by
  rw [posicoes_eq]
  have h : (1 / 20 : ℝ) * (63 : ℕ) = 3.15 := by norm_num
  rw [h]
  have := cos_315_gt
  linarith

lemma posicoes_63_small : posicoes 63 < 1 / 10000 := by
  rw [posicoes_eq]
  have h : (1 / 20 : ℝ) * (63 : ℕ) = 3.15 := by norm_num
  rw [h]
  have := cos_315_le
  linarith

lemma posicoes_125_gt : (1 : ℝ) - 3 / 10000 < posicoes 125 := by
  rw [posicoes_eq]
  have h : (1 / 20 : ℝ) * (125 : ℕ) = 6.25 := by norm_num
  rw [h]
  have := cos_625_bounds.1
  linarith

lemma posicoes_125_lt : posicoes 125 < 1 := by
  rw [posicoes_eq]
  have h : (1 / 20 : ℝ) * (125 : ℕ) = 6.25 := by norm_num
  rw [h]
  have := cos_625_bounds.2
  linarith

lemma posicoes_63_min {j : ℕ} (hj : j < 126) : posicoes 63 ≤ posicoes j := by
  have hπ1 : (3.141592 : ℝ) < Real.pi := Real.pi_gt_d6
  have hπ2 : Real.pi < 3.141593 := Real.pi_lt_d6
  have h63 : (1 / 20 : ℝ) * (63 : ℕ) = 3.15 := by norm_num
  rcases lt_trichotomy j 63 with hlt | heq | hgt
  · -- ascending part: 0 ≤ t_j ≤ 3.10 < π, cosine is antitone there
    have hjr : (j : ℝ) ≤ 62 := by
      have : j ≤ 62 := by omega
      exact_mod_cast this
    have hjr0 : (0 : ℝ) ≤ (j : ℝ) := Nat.cast_nonneg j
    have harg : (1 / 20 : ℝ) * j ≤ 3.10 := by linarith
    have harg0 : (0 : ℝ) ≤ (1 / 20 : ℝ) * j := by linarith
    have hmono : Real.cos 3.10 ≤ Real.cos ((1 / 20 : ℝ) * j) :=
      Real.cos_le_cos_of_nonneg_of_le_pi harg0 (by linarith) harg
    have h310 := cos_310_ge
    have h315 := cos_315_le
    rw [posicoes_eq, posicoes_eq, h63]
    linarith
  · rw [heq]
  · -- descending part: t_j ∈ [3.20, 6.25], fold with cos (2π - x) = cos x
    have hjr : (64 : ℝ) ≤ (j : ℝ) := by
      have : 64 ≤ j := by omega
      exact_mod_cast this
    have hjr1 : (j : ℝ) ≤ 125 := by
      have : j ≤ 125 := by omega
      exact_mod_cast this
    have hfold : Real.cos ((1 / 20 : ℝ) * j) =
        Real.cos (2 * Real.pi - (1 / 20 : ℝ) * j) := by
      rw [Real.cos_two_pi_sub]
    have harg0 : (0 : ℝ) ≤ 2 * Real.pi - (1 / 20 : ℝ) * j := by linarith
    have harg1 : 2 * Real.pi - (1 / 20 : ℝ) * j ≤ 3.083186 := by linarith
    have hmono : Real.cos 3.083186 ≤ Real.cos (2 * Real.pi - (1 / 20 : ℝ) * j) :=
      Real.cos_le_cos_of_nonneg_of_le_pi harg0 (by linarith) harg1
    have hlow := cos_3083186_ge
    have h315 := cos_315_le
    rw [posicoes_eq, posicoes_eq, h63, hfold]
    linarith

/-- Claim C5, counterexample: the midpoint sample (index 63, time 3.15 ≈ π) is
strictly positive, not 0, and the final sample (index 125, time 6.25 ≈ 2π)
falls strictly short of `y_max`: the `arange` grid does not land exactly on π
or 2π. -/
theorem claim_C5_counterexample :
    posicoes 63 ≠ 0 ∧ posicoes 125 ≠ ((y_max : ℚ) : ℝ) := by
  constructor
  · exact ne_of_gt posicoes_63_pos
  · rw [ymax_cast]
    exact ne_of_lt posicoes_125_lt

/-- Claim C5 (amended): the sampled trajectory has exactly
`⌈2π/0.05⌉ = 126` samples, starts exactly at `y_max`, attains its minimum over
all samples at the midpoint sample (index 63, t = 3.15 ≈ π) whose value is
within `10⁻⁴` of 0 though strictly positive, and the final sample
(t = 6.25 ≈ 2π) is within `3·10⁻⁴` of `y_max` though strictly below it.  The
original claim asserted the midpoint value is exactly 0 and the final sample
exactly `y_max`, which fails because the fixed-step grid does not contain π or
2π. -/
theorem claim_C5_trajectory :
    numAmostras = 126 ∧ posicoes 0 = ((y_max : ℚ) : ℝ) ∧
    (∀ j : ℕ, j < numAmostras → posicoes 63 ≤ posicoes j) ∧
    0 < posicoes 63 ∧ posicoes 63 < 1 / 10000 ∧
    ((y_max : ℚ) : ℝ) - 3 / 10000 < posicoes 125 ∧
    posicoes 125 < ((y_max : ℚ) : ℝ) := by
  refine ⟨numAmostras_eq, ?_, fun j hj => ?_, posicoes_63_pos, posicoes_63_small,
    ?_, ?_⟩
  · rw [posicoes_eq, ymax_cast]
    norm_num
  · exact posicoes_63_min (numAmostras_eq ▸ hj)
  · rw [ymax_cast]
    exact posicoes_125_gt
  · rw [ymax_cast]
    exact posicoes_125_lt

/-- Witness for C5 at the first sample `j = 0`. -/
theorem claim_C5_trajectory_witness : posicoes 63 ≤ posicoes 0 :=
  claim_C5_trajectory.2.2.1 0 (by rw [numAmostras_eq]; norm_num)

/-- Witness for C10 at `y = 1/2`. -/
theorem claim_C10_energy_budget_witness :
    (0 : ℚ) ≤ 1 / 2 ∧ (1 / 2 : ℚ) ≤ y_max ∧
      ((calcular_Energias (1 / 2)).E_mec ≤ ((m * g * y_max : ℚ) : ℝ) ∧
        0 ≤ (calcular_Energias (1 / 2)).K_c ∧ 0 ≤ (calcular_Energias (1 / 2)).U_g ∧
        0 ≤ (calcular_Energias (1 / 2)).U_el ∧ 0 ≤ (calcular_Energias (1 / 2)).v ∧
        0 ≤ (calcular_Energias (1 / 2)).x ∧
        ((x_max < snap (1 / 2) ∧ snap (1 / 2) < y_max) ∨
            (0 < snap (1 / 2) ∧ snap (1 / 2) < x_max) →
          (calcular_Energias (1 / 2)).E_mec = ((m * g * y_max : ℚ) : ℝ))) :=
  ⟨by norm_num, by norm_num [y_max],
    claim_C10_energy_budget (1 / 2) (by norm_num) (by norm_num [y_max])⟩

end JumpJump
